import Mathlib

/-!
Verification of the kite-design parameter estimator and scorer.

This file gives a shallow embedding of the Python sources
`src/core/calculator.py`, `src/core/scorer.py`, the configuration data in
`src/config/settings.py`, and (for the perimeter-cancellation property) the
legacy `src/kite_calculator.py`.  Python floats are modelled as exact rationals (ℚ);
Python's `round(x, d)` (round half to even) is modelled by `pyRound`; Python
dicts keyed by strings are modelled as association lists with `List.lookup`.
-/

/-- The floor of a rational, written out computably (`q.den` is positive, so
floor division of the numerator by the denominator is the floor). -/
def qfloor (q : ℚ) : ℤ := Int.fdiv q.num (q.den : ℤ)

/-- Round-half-to-even to the nearest integer, the tie behaviour of Python's
built-in `round`. -/
def rhe (q : ℚ) : ℤ :=
  let f : ℤ := qfloor q
  let frac : ℚ := q - (f : ℚ)
  if frac < 1/2 then f
  else if 1/2 < frac then f + 1
  else if f % 2 = 0 then f else f + 1

/-- Python's `round(q, d)`: round to `d` decimal places, half to even. -/
def pyRound (q : ℚ) (d : ℕ) : ℚ :=
  ((rhe (q * (10 : ℚ) ^ d) : ℚ)) / (10 : ℚ) ^ d

/-- `MaterialProperty` from `src/config/settings.py`: one record type carrying
the union of the per-category attributes, unused attributes defaulting to 0
(`weight_factor` defaults to 1 as in the source). -/
structure MaterialProperty where
  name : String := ""
  density : ℚ := 0
  strength : ℚ := 0
  flexibility : ℚ := 0
  cost : ℚ := 0
  weight_factor : ℚ := 1
  wind_resistance : ℚ := 0
  weight_per_sqm : ℚ := 0
  air_permeability : ℚ := 0
  tensile_strength : ℚ := 0
  weight_per_meter : ℚ := 0
  elasticity : ℚ := 0
deriving DecidableEq, Repr

namespace Config

/-- `MaterialsConfig.FRAME_MATERIALS` from `src/config/settings.py`. -/
def FRAME_MATERIALS : List (String × MaterialProperty) :=
  [("竹子",
    { name := "竹子", density := 0.6, strength := 80, flexibility := 85,
      cost := 1.0, weight_factor := 1.0 }),
   ("铝合金",
    { name := "铝合金", density := 2.7, strength := 150, flexibility := 60,
      cost := 3.5, weight_factor := 0.8 }),
   ("碳纤维",
    { name := "碳纤维", density := 1.6, strength := 200, flexibility := 70,
      cost := 8.0, weight_factor := 0.5 })]

/-- `MaterialsConfig.SURFACE_MATERIALS` from `src/config/settings.py`. -/
def SURFACE_MATERIALS : List (String × MaterialProperty) :=
  [("丝绸",
    { name := "丝绸", weight_per_sqm := 60, wind_resistance := 70,
      cost := 2.0, air_permeability := 15 }),
   ("尼龙",
    { name := "尼龙", weight_per_sqm := 85, wind_resistance := 95,
      cost := 1.5, air_permeability := 5 }),
   ("Mylar膜",
    { name := "Mylar膜", weight_per_sqm := 50, wind_resistance := 85,
      cost := 3.0, air_permeability := 2 })]

/-- `MaterialsConfig.STRING_MATERIALS` from `src/config/settings.py`. -/
def STRING_MATERIALS : List (String × MaterialProperty) :=
  [("麻绳",
    { name := "麻绳", tensile_strength := 500, weight_per_meter := 8,
      elasticity := 30, cost := 0.5 }),
   ("钢索",
    { name := "钢索", tensile_strength := 2000, weight_per_meter := 15,
      elasticity := 10, cost := 2.0 }),
   ("凯夫拉",
    { name := "凯夫拉", tensile_strength := 3000, weight_per_meter := 5,
      elasticity := 20, cost := 5.0 })]

/-- `ScoringConfig` from `src/config/settings.py`, defaults as in the source. -/
structure ScoringConfig where
  WEIGHT_PERFORMANCE : ℚ := 0.40
  WEIGHT_FEASIBILITY : ℚ := 0.30
  WEIGHT_COST : ℚ := 0.20
  WEIGHT_INNOVATION : ℚ := 0.10
  SCORE_SUCCESS_THRESHOLD : ℚ := 80
  SCORE_STRUGGLE_THRESHOLD : ℚ := 50
  COST_EXCELLENT : ℚ := 50
  COST_GOOD : ℚ := 100
  COST_FAIR : ℚ := 150
deriving DecidableEq, Repr

/-- The global `config.scoring` instance (`AppConfig()` default values; nothing
in the sources mutates the scoring configuration). -/
def scoring : ScoringConfig := {}

/-- `SystemConfig.DEFAULT_STRING_LENGTH` (metres). -/
def DEFAULT_STRING_LENGTH : ℚ := 50

end Config

/-- The drawing data read by the calculator: `drawing.statistics.totalPoints`,
`drawing.statistics.pathCount` and the legacy `drawing.object_count`.  In the
source each is read with `.get(..., 0)`, so an absent key and the value 0 are
indistinguishable; the model uses ℕ counts with default 0. -/
structure Drawing where
  totalPoints : ℕ := 0
  pathCount : ℕ := 0
  object_count : ℕ := 0
deriving DecidableEq, Repr

/-- A well-formed `materials` field: Python's `dict[str, list[str]]` as an
association list from category name to the selected material names. -/
abbrev Materials := List (String × List String)

/-- `materials.get(category, [])`. -/
def getMat (m : Materials) (cat : String) : List String :=
  (List.lookup cat m).getD []

/-- A design record as consumed by `KiteCalculator.__init__` (well-formed
`materials`). -/
structure DesignData where
  drawing : Drawing := {}
  materials : Materials := []
deriving DecidableEq, Repr

/-- `KiteParameters` from `src/core/calculator.py`. -/
structure KiteParameters where
  area : ℚ := 0
  perimeter : ℚ := 0
  frame_weight : ℚ := 0
  surface_weight : ℚ := 0
  string_weight : ℚ := 0
  total_weight : ℚ := 0
  strength_index : ℚ := 0
  wind_resistance : ℚ := 0
  flight_stability : ℚ := 0
  min_wind_speed : ℚ := 0
  max_wind_speed : ℚ := 0
  optimal_wind_speed : ℚ := 0
  estimated_cost : ℚ := 0
  materials_used : Materials := []
deriving DecidableEq, Repr

namespace KiteCalculator

/-- `KiteCalculator.calculate_area`: area from the drawing point count, with
the `object_count * 50` fallback when `totalPoints` is 0/absent. -/
def calculate_area (d : DesignData) : ℚ :=
  let total_points : ℕ :=
    if d.drawing.totalPoints = 0 then d.drawing.object_count * 50
    else d.drawing.totalPoints
  if 0 < total_points then pyRound ((total_points : ℚ) * 0.8) 2
  else 0

/-- `KiteCalculator.calculate_perimeter`: when `totalPoints` is 0 both counts
fall back to `object_count`-derived values, then
`path_count * (total_points / path_count) * 0.5`, guarded on `path_count > 0`. -/
def calculate_perimeter (d : DesignData) : ℚ :=
  let total_points : ℕ :=
    if d.drawing.totalPoints = 0 then d.drawing.object_count * 50
    else d.drawing.totalPoints
  let path_count : ℕ :=
    if d.drawing.totalPoints = 0 then d.drawing.object_count
    else d.drawing.pathCount
  if 0 < path_count then
    let avg_path_length : ℚ := (total_points : ℚ) / (path_count : ℚ)
    pyRound ((path_count : ℚ) * avg_path_length * 0.5) 2
  else 0

/-- Loop body of `calculate_frame_weight`: a recognized material adds
`frame_volume * density * weight_factor / len(frame_materials)`, an unknown
name adds nothing. -/
def frameContribution (frame_volume count : ℚ) (acc : ℚ) (material : String) : ℚ :=
  match List.lookup material Config.FRAME_MATERIALS with
  | some props => acc + frame_volume * props.density * props.weight_factor / count
  | none => acc

/-- `KiteCalculator.calculate_frame_weight`. -/
def calculate_frame_weight (d : DesignData) : ℚ :=
  let frame_materials := getMat d.materials "骨架材料"
  if frame_materials = [] then 0
  else
    let frame_length := calculate_perimeter d * 1.5
    let frame_volume := frame_length * 0.5
    pyRound (frame_materials.foldl
      (frameContribution frame_volume (frame_materials.length : ℚ)) 0) 2

/-- Loop body of `calculate_surface_weight`. -/
def surfaceContribution (area_sqm count : ℚ) (acc : ℚ) (material : String) : ℚ :=
  match List.lookup material Config.SURFACE_MATERIALS with
  | some props => acc + area_sqm * props.weight_per_sqm / count
  | none => acc

/-- `KiteCalculator.calculate_surface_weight`. -/
def calculate_surface_weight (d : DesignData) : ℚ :=
  let surface_materials := getMat d.materials "风筝面料"
  if surface_materials = [] then 0
  else
    let area_sqm := calculate_area d / 10000
    pyRound (surface_materials.foldl
      (surfaceContribution area_sqm (surface_materials.length : ℚ)) 0) 2

/-- Loop body of `calculate_string_weight`. -/
def stringContribution (string_length count : ℚ) (acc : ℚ) (material : String) : ℚ :=
  match List.lookup material Config.STRING_MATERIALS with
  | some props => acc + string_length * props.weight_per_meter / count
  | none => acc

/-- `KiteCalculator.calculate_string_weight`. -/
def calculate_string_weight (d : DesignData) : ℚ :=
  let string_materials := getMat d.materials "绳索材料"
  if string_materials = [] then 0
  else
    pyRound (string_materials.foldl
      (stringContribution Config.DEFAULT_STRING_LENGTH
        (string_materials.length : ℚ)) 0) 2

/-- `KiteCalculator.calculate_total_weight`. -/
def calculate_total_weight (d : DesignData) : ℚ :=
  pyRound (calculate_frame_weight d + calculate_surface_weight d
    + calculate_string_weight d) 2

/-- Loop body of `calculate_strength_index`: recognized materials add their
`strength`, unknown names add nothing. -/
def strengthContribution (acc : ℚ) (material : String) : ℚ :=
  match List.lookup material Config.FRAME_MATERIALS with
  | some props => acc + props.strength
  | none => acc

/-- `KiteCalculator.calculate_strength_index`. -/
def calculate_strength_index (d : DesignData) : ℚ :=
  let frame_materials := getMat d.materials "骨架材料"
  if frame_materials = [] then 0
  else
    pyRound ((frame_materials.foldl strengthContribution 0)
      / (frame_materials.length : ℚ)) 2

/-- Loop body of `calculate_wind_resistance`. -/
def windResContribution (acc : ℚ) (material : String) : ℚ :=
  match List.lookup material Config.SURFACE_MATERIALS with
  | some props => acc + props.wind_resistance
  | none => acc

/-- `KiteCalculator.calculate_wind_resistance`. -/
def calculate_wind_resistance (d : DesignData) : ℚ :=
  let surface_materials := getMat d.materials "风筝面料"
  if surface_materials = [] then 0
  else
    pyRound ((surface_materials.foldl windResContribution 0)
      / (surface_materials.length : ℚ)) 2

/-- `KiteCalculator.calculate_flight_stability` (`w_over_a` is the source's
`weight_area_ratio`). -/
def calculate_flight_stability (d : DesignData) : ℚ :=
  let area := calculate_area d
  let weight := calculate_total_weight d
  let strength := calculate_strength_index d
  let ratio_score : ℚ :=
    if 0 < area then
      let w_over_a := weight / area
      max 0 (100 - |w_over_a - 0.5| * 100)
    else 0
  pyRound (ratio_score * 0.5 + strength * 0.5) 2

/-- `KiteCalculator.calculate_optimal_wind_speed`, returning the
(`min`, `max`) pair. -/
def calculate_optimal_wind_speed (d : DesignData) : ℚ × ℚ :=
  let weight := calculate_total_weight d
  let area := calculate_area d
  let wind_resistance := calculate_wind_resistance d
  if 0 < area then
    let w_over_a := weight / area
    (pyRound (2 + w_over_a * 2) 1, pyRound (5 + (wind_resistance / 10) * 3) 1)
  else (0, 0)

/-- Frame loop body of `calculate_cost`. -/
def costFrameContribution (perimeter : ℚ) (acc : ℚ) (material : String) : ℚ :=
  match List.lookup material Config.FRAME_MATERIALS with
  | some props => acc + (perimeter / 100) * props.cost * 10
  | none => acc

/-- Surface loop body of `calculate_cost`. -/
def costSurfaceContribution (area : ℚ) (acc : ℚ) (material : String) : ℚ :=
  match List.lookup material Config.SURFACE_MATERIALS with
  | some props => acc + (area / 100) * props.cost * 5
  | none => acc

/-- String loop body of `calculate_cost` (literal `50`, as in the source). -/
def costStringContribution (acc : ℚ) (material : String) : ℚ :=
  match List.lookup material Config.STRING_MATERIALS with
  | some props => acc + 50 * props.cost * 0.2
  | none => acc

/-- `KiteCalculator.calculate_cost`: the three per-category loops accumulate
into one running total, then round to 2 decimals. -/
def calculate_cost (d : DesignData) : ℚ :=
  let perimeter := calculate_perimeter d
  let area := calculate_area d
  let c1 := (getMat d.materials "骨架材料").foldl (costFrameContribution perimeter) 0
  let c2 := (getMat d.materials "风筝面料").foldl (costSurfaceContribution area) c1
  let c3 := (getMat d.materials "绳索材料").foldl costStringContribution c2
  pyRound c3 2

/-- `KiteCalculator.calculate_all`. -/
def calculate_all (d : DesignData) : KiteParameters :=
  let wind_speed := calculate_optimal_wind_speed d
  { area := calculate_area d
    perimeter := calculate_perimeter d
    frame_weight := calculate_frame_weight d
    surface_weight := calculate_surface_weight d
    string_weight := calculate_string_weight d
    total_weight := calculate_total_weight d
    strength_index := calculate_strength_index d
    wind_resistance := calculate_wind_resistance d
    flight_stability := calculate_flight_stability d
    min_wind_speed := wind_speed.1
    max_wind_speed := wind_speed.2
    optimal_wind_speed := pyRound ((wind_speed.1 + wind_speed.2) / 2) 1
    estimated_cost := calculate_cost d
    materials_used := d.materials }

end KiteCalculator

/-- `ScoreLevel` from `src/core/scorer.py`. -/
inductive ScoreLevel where
  | success
  | struggle
  | fail
deriving DecidableEq, Repr

/-- `ScoreResult` from `src/core/scorer.py`. -/
structure ScoreResult where
  total_score : ℚ
  level : ScoreLevel
  performance_score : ℚ
  feasibility_score : ℚ
  cost_score : ℚ
  innovation_score : ℚ
  parameters : KiteParameters
deriving DecidableEq, Repr

namespace KiteScorer

/-- `KiteScorer.calculate_performance_score`. -/
def calculate_performance_score (p : KiteParameters) : ℚ :=
  pyRound (p.flight_stability * 0.5 + p.strength_index * 0.3
    + p.wind_resistance * 0.2) 2

/-- `KiteScorer.calculate_feasibility_score` (`w_over_a` is the source's
`ratio`). -/
def calculate_feasibility_score (p : KiteParameters) : ℚ :=
  if p.area ≤ 0 then 0
  else
    let w_over_a := p.total_weight / p.area
    if 0.3 ≤ w_over_a ∧ w_over_a ≤ 0.7 then 100
    else if 0.2 ≤ w_over_a ∧ w_over_a ≤ 1.0 then 70
    else 40

/-- `KiteScorer.calculate_cost_score`, reading the thresholds from the global
scoring configuration. -/
def calculate_cost_score (p : KiteParameters) : ℚ :=
  if p.estimated_cost < Config.scoring.COST_EXCELLENT then 100
  else if p.estimated_cost < Config.scoring.COST_GOOD then 80
  else if p.estimated_cost < Config.scoring.COST_FAIR then 60
  else 30

/-- `KiteScorer.calculate_innovation_score`: `min(count * 20, 100)` over the
total number of selected material names. -/
def calculate_innovation_score (p : KiteParameters) : ℚ :=
  let materials_count : ℕ := (p.materials_used.map (fun kv => kv.2.length)).sum
  ((min (materials_count * 20) 100 : ℕ) : ℚ)

/-- `KiteScorer.determine_level`, reading the thresholds from the global
scoring configuration. -/
def determine_level (score : ℚ) : ScoreLevel :=
  if score ≥ Config.scoring.SCORE_SUCCESS_THRESHOLD then ScoreLevel.success
  else if score ≥ Config.scoring.SCORE_STRUGGLE_THRESHOLD then ScoreLevel.struggle
  else ScoreLevel.fail

/-- The body of `KiteScorer.score` after the calculator has produced the
`KiteParameters`: sub-scores, weighted total, level. -/
def scoreParams (p : KiteParameters) : ScoreResult :=
  let performance := calculate_performance_score p
  let feasibility := calculate_feasibility_score p
  let cost := calculate_cost_score p
  let innovation := calculate_innovation_score p
  let total := pyRound (performance * Config.scoring.WEIGHT_PERFORMANCE
    + feasibility * Config.scoring.WEIGHT_FEASIBILITY
    + cost * Config.scoring.WEIGHT_COST
    + innovation * Config.scoring.WEIGHT_INNOVATION) 1
  { total_score := total
    level := determine_level total
    performance_score := performance
    feasibility_score := feasibility
    cost_score := cost
    innovation_score := innovation
    parameters := p }

/-- `KiteScorer.score`: compute the parameters, then the scores. -/
def score (design_data : DesignData) : ScoreResult :=
  scoreParams (KiteCalculator.calculate_all design_data)

end KiteScorer

/-- The `materials` field of a raw design record before any validation: either
structurally a mapping of category names to collections of material names, or
anything else (a shape on which the Python code raises). -/
inductive MaterialsField where
  | dict (entries : Materials)
  | malformed
deriving DecidableEq

/-- The `drawing` field of a raw design record.
`design_data.get('drawing', {})` yields a mapping both when the key is absent
(the `{}` default; absent sub-keys then read as 0) and when it holds a
mapping — `dict dr` covers both.  When the key is *present* but its value is
not a mapping — typically `'drawing': None`, which the UI layers store for a
materials-only design — `self.drawing.get(...)` raises `AttributeError`;
`malformed` covers that shape. -/
inductive DrawingField where
  | dict (dr : Drawing)
  | malformed
deriving DecidableEq

/-- A raw design record: arbitrary `drawing` and `materials` fields. -/
structure DesignDyn where
  drawing : DrawingField := .dict {}
  materials : MaterialsField := .dict []

namespace KiteCalculator

/-- `KiteScorer.score`'s view of `KiteCalculator(design_data).calculate_all()`
on a raw record.  In the source, `self.materials.get(...)` raises
`AttributeError` when `materials` is not a mapping (or `TypeError` when a
category's value is not a collection), and `self.drawing.get(...)` raises
`AttributeError` when the `drawing` key is present with a non-mapping value
such as `None`.  `calculate_all` always reaches both calls: the first through
`calculate_optimal_wind_speed → calculate_total_weight →
calculate_frame_weight`, the second through `calculate_optimal_wind_speed →
calculate_area`.  A record whose two fields are structurally well-formed is
processed by the total functions above and never raises. -/
def calculate_all_dyn (d : DesignDyn) : Except Unit KiteParameters :=
  match d.materials, d.drawing with
  | .dict m, .dict dr => .ok (calculate_all { drawing := dr, materials := m })
  | _, _ => .error ()

end KiteCalculator

/-- A design record as seen by `RealtimeScorer.check_new_designs`: the scoring
payload plus the identifier fields.  `payload` stands for the record content
handed to the scorer (its value is irrelevant to the deduplication logic). -/
structure DesignRec where
  design_id : Option String := none
  created_at : Option String := none
  payload : ℕ := 0
deriving DecidableEq, Repr

/-- `design.get('design_id', design.get('created_at', 'unknown'))`. -/
def designId (d : DesignRec) : String :=
  d.design_id.getD (d.created_at.getD "unknown")

/-- The mutable state of `RealtimeScorer`: the processed-identifier set and
the accumulated score records. -/
structure RTState where
  processed_ids : List String := []
  results : List (String × ℚ) := []
deriving DecidableEq, Repr

namespace RealtimeScorer

/-- One iteration of the loop body of `check_new_designs` on one design:
skip when the identifier was already processed, otherwise mark it processed
and attempt to score (`scorer` returns `none` when `scorer.score` raises; the
identifier stays marked either way).  Returns the new state and the list of
identifiers on which scoring was attempted this step. -/
def processOne (scorer : DesignRec → Option ℚ) (s : RTState) (d : DesignRec) :
    RTState × List String :=
  let i := designId d
  if i ∈ s.processed_ids then (s, [])
  else
    let s1 : RTState := { processed_ids := i :: s.processed_ids, results := s.results }
    match scorer d with
    | some v => ({ s1 with results := s1.results ++ [(i, v)] }, [i])
    | none => (s1, [i])

/-- `RealtimeScorer.check_new_designs`: fold the loop body over the fetched
design list, collecting the identifiers scored in this call. -/
def check_new_designs (scorer : DesignRec → Option ℚ) (s : RTState) :
    List DesignRec → RTState × List String
  | [] => (s, [])
  | d :: ds =>
    let r1 := processOne scorer s d
    let r2 := check_new_designs scorer r1.1 ds
    (r2.1, r1.2 ++ r2.2)

/-- A whole monitoring run: `check_new_designs` once per polling iteration,
each iteration seeing an arbitrary batch of records. -/
def runMonitor (scorer : DesignRec → Option ℚ) (s : RTState) :
    List (List DesignRec) → RTState × List String
  | [] => (s, [])
  | b :: bs =>
    let r1 := check_new_designs scorer s b
    let r2 := runMonitor scorer r1.1 bs
    (r2.1, r1.2 ++ r2.2)

/-- The state at construction: empty processed set, empty results. -/
def init : RTState := {}

end RealtimeScorer

namespace LegacyKiteCalculator

/-- `KiteCalculator.calculate_perimeter` from the legacy
`src/kite_calculator.py`: same formula as the core module but without the
`object_count` fallback. -/
def calculate_perimeter (dr : Drawing) : ℚ :=
  if 0 < dr.pathCount then
    let avg_path_length : ℚ := (dr.totalPoints : ℚ) / (dr.pathCount : ℚ)
    pyRound ((dr.pathCount : ℚ) * avg_path_length * 0.5) 2
  else 0

end LegacyKiteCalculator

/-! ### Arithmetic helper lemmas -/

lemma qfloor_intCast (z : ℤ) : qfloor ((z : ℚ)) = z := by
  unfold qfloor
  simp [Int.fdiv_one]

lemma rhe_intCast (z : ℤ) : rhe ((z : ℚ)) = z := by
  unfold rhe
  rw [qfloor_intCast]
  norm_num

/-- To evaluate `pyRound q d` it is enough to show that `q * 10 ^ d` is the
integer `z` and that `z / 10 ^ d` is `r`. -/
lemma pyRound_int (q : ℚ) (d : ℕ) (z : ℤ) (r : ℚ)
    (h1 : q * 10 ^ d = (z : ℚ)) (h2 : (z : ℚ) = r * 10 ^ d) :
    pyRound q d = r := by
  have hd : ((10 : ℚ) ^ d) ≠ 0 := by positivity
  unfold pyRound
  rw [h1, rhe_intCast, h2, mul_div_assoc, div_self hd, mul_one]

lemma pyRound_zero (d : ℕ) : pyRound 0 d = 0 :=
  pyRound_int 0 d 0 0 (by norm_num) (by norm_num)

/-! ### Helper lemmas about the scorer and calculator -/

lemma determine_level_spec (t : ℚ) :
    (KiteScorer.determine_level t = ScoreLevel.success ↔ 80 ≤ t)
  ∧ (KiteScorer.determine_level t = ScoreLevel.struggle ↔ 50 ≤ t ∧ t < 80)
  ∧ (KiteScorer.determine_level t = ScoreLevel.fail ↔ t < 50) := by
  have h80 : Config.scoring.SCORE_SUCCESS_THRESHOLD = 80 := rfl
  have h50 : Config.scoring.SCORE_STRUGGLE_THRESHOLD = 50 := rfl
  unfold KiteScorer.determine_level
  rw [h80, h50]
  split_ifs with h1 h2
  · refine ⟨⟨fun _ => h1, fun _ => rfl⟩, ⟨fun h => absurd h (by decide), ?_⟩,
      ⟨fun h => absurd h (by decide), fun h => absurd h (by linarith)⟩⟩
    rintro ⟨_, hlt⟩; linarith
  · refine ⟨⟨fun h => absurd h (by decide), fun h => absurd h (by linarith)⟩,
      ⟨fun _ => ⟨h2, by linarith⟩, fun _ => rfl⟩,
      ⟨fun h => absurd h (by decide), fun h => absurd h (by linarith)⟩⟩
  · refine ⟨⟨fun h => absurd h (by decide), fun h => absurd h (by linarith)⟩,
      ⟨fun h => absurd h (by decide), ?_⟩, ⟨fun _ => by linarith, fun _ => rfl⟩⟩
    rintro ⟨hge, _⟩; linarith

/-- C1: For every `KiteParameters` input, the composite score equals
`performance_score * 0.40 + feasibility_score * 0.30 + cost_score * 0.20 +
innovation_score * 0.10` rounded to 1 decimal, and the verdict tier is
`success` when the composite is ≥ 80, `struggle` when it is ≥ 50 and < 80,
and `fail` otherwise. -/
theorem C1_composite_and_verdict (p : KiteParameters) :
    (KiteScorer.scoreParams p).total_score
      = pyRound ((KiteScorer.scoreParams p).performance_score * 0.40
          + (KiteScorer.scoreParams p).feasibility_score * 0.30
          + (KiteScorer.scoreParams p).cost_score * 0.20
          + (KiteScorer.scoreParams p).innovation_score * 0.10) 1
  ∧ ((KiteScorer.scoreParams p).level = ScoreLevel.success
      ↔ 80 ≤ (KiteScorer.scoreParams p).total_score)
  ∧ ((KiteScorer.scoreParams p).level = ScoreLevel.struggle
      ↔ 50 ≤ (KiteScorer.scoreParams p).total_score
        ∧ (KiteScorer.scoreParams p).total_score < 80)
  ∧ ((KiteScorer.scoreParams p).level = ScoreLevel.fail
      ↔ (KiteScorer.scoreParams p).total_score < 50) :=
  ⟨rfl, (determine_level_spec _).1, (determine_level_spec _).2.1,
    (determine_level_spec _).2.2⟩

/-- C2: the cost sub-score tiers are decided by strict `<` comparisons against
50 / 100 / 150, first matching tier wins; costs exactly at a boundary fall
into the next (less favourable) tier. -/
theorem C2_cost_tiers (p : KiteParameters) :
    (p.estimated_cost < 50 → KiteScorer.calculate_cost_score p = 100)
  ∧ (50 ≤ p.estimated_cost → p.estimated_cost < 100 →
      KiteScorer.calculate_cost_score p = 80)
  ∧ (100 ≤ p.estimated_cost → p.estimated_cost < 150 →
      KiteScorer.calculate_cost_score p = 60)
  ∧ (150 ≤ p.estimated_cost → KiteScorer.calculate_cost_score p = 30)
  ∧ (p.estimated_cost = 50 → KiteScorer.calculate_cost_score p = 80)
  ∧ (p.estimated_cost = 100 → KiteScorer.calculate_cost_score p = 60)
  ∧ (p.estimated_cost = 150 → KiteScorer.calculate_cost_score p = 30) := by
  have e1 : Config.scoring.COST_EXCELLENT = 50 := rfl
  have e2 : Config.scoring.COST_GOOD = 100 := rfl
  have e3 : Config.scoring.COST_FAIR = 150 := rfl
  unfold KiteScorer.calculate_cost_score
  rw [e1, e2, e3]
  refine ⟨?_, ?_, ?_, ?_, ?_, ?_, ?_⟩ <;> intros <;> split_ifs <;>
    first | rfl | linarith

theorem C2_cost_tiers_witness :
    KiteScorer.calculate_cost_score { estimated_cost := 50 } = 80
  ∧ KiteScorer.calculate_cost_score { estimated_cost := 100 } = 60
  ∧ KiteScorer.calculate_cost_score { estimated_cost := 150 } = 30 :=
  ⟨(C2_cost_tiers _).2.2.2.2.1 rfl, (C2_cost_tiers _).2.2.2.2.2.1 rfl,
    (C2_cost_tiers _).2.2.2.2.2.2 rfl⟩

/-- C3: feasibility sub-score is 0 when area ≤ 0; otherwise 100 in the tight
band [0.3, 0.7] of weight/area, else 70 in the loose band [0.2, 1.0]
(inclusive bounds, tight band checked first), else 40. -/
theorem C3_feasibility (p : KiteParameters) :
    (p.area ≤ 0 → KiteScorer.calculate_feasibility_score p = 0)
  ∧ (0 < p.area →
      ((0.3 ≤ p.total_weight / p.area ∧ p.total_weight / p.area ≤ 0.7) →
          KiteScorer.calculate_feasibility_score p = 100)
    ∧ (¬(0.3 ≤ p.total_weight / p.area ∧ p.total_weight / p.area ≤ 0.7) →
        (0.2 ≤ p.total_weight / p.area ∧ p.total_weight / p.area ≤ 1.0) →
          KiteScorer.calculate_feasibility_score p = 70)
    ∧ (¬(0.3 ≤ p.total_weight / p.area ∧ p.total_weight / p.area ≤ 0.7) →
        ¬(0.2 ≤ p.total_weight / p.area ∧ p.total_weight / p.area ≤ 1.0) →
          KiteScorer.calculate_feasibility_score p = 40)) := by
  unfold KiteScorer.calculate_feasibility_score
  constructor
  · intro h
    rw [if_pos h]
  · intro hpos
    rw [if_neg (not_le.mpr hpos)]
    refine ⟨fun ht => ?_, fun hnt hl => ?_, fun hnt hnl => ?_⟩
    · rw [if_pos ht]
    · rw [if_neg hnt, if_pos hl]
    · rw [if_neg hnt, if_neg hnl]

theorem C3_feasibility_witness :
    KiteScorer.calculate_feasibility_score { area := -1 } = 0
  ∧ KiteScorer.calculate_feasibility_score { area := 100, total_weight := 50 } = 100 :=
  ⟨(C3_feasibility _).1 (by norm_num),
    ((C3_feasibility _).2 (by norm_num)).1 (by norm_num)⟩

lemma foldl_frameContribution (v c : ℚ) (l : List String) (a : ℚ) :
    l.foldl (KiteCalculator.frameContribution v c) a
      = a + ((l.filterMap fun m => List.lookup m Config.FRAME_MATERIALS).map
          fun props => v * props.density * props.weight_factor / c).sum := by
  induction l generalizing a with
  | nil => simp
  | cons m l ih =>
    rw [List.foldl_cons, List.filterMap_cons]
    cases h : List.lookup m Config.FRAME_MATERIALS with
    | none =>
      simp only [KiteCalculator.frameContribution, h]
      exact ih a
    | some props =>
      simp only [KiteCalculator.frameContribution, h, List.map_cons, List.sum_cons]
      rw [ih]
      ring

/-- C4: frame weight is 0 with no frame materials selected; otherwise it is
`round(Σ over the recognized selected frame materials of
(perimeter × 1.5 × 0.5) × density × weight_factor / N, 2)` where `N` counts
all selected frame materials, recognized or not. -/
theorem C4_frame_weight (d : DesignData) :
    (getMat d.materials "骨架材料" = [] → KiteCalculator.calculate_frame_weight d = 0)
  ∧ (getMat d.materials "骨架材料" ≠ [] →
      KiteCalculator.calculate_frame_weight d
        = pyRound ((((getMat d.materials "骨架材料").filterMap
              fun m => List.lookup m Config.FRAME_MATERIALS).map
              fun props => (KiteCalculator.calculate_perimeter d * 1.5 * 0.5)
                  * props.density * props.weight_factor
                  / ((getMat d.materials "骨架材料").length : ℚ)).sum) 2) := by
  unfold KiteCalculator.calculate_frame_weight
  constructor
  · intro h
    rw [if_pos h]
  · intro h
    rw [if_neg h]
    simp only [foldl_frameContribution, zero_add]

theorem C4_frame_weight_witness :
    (getMat [("骨架材料", ["碳纤维", "无名材料"])] "骨架材料" ≠ [])
  ∧ KiteCalculator.calculate_frame_weight
      { drawing := { totalPoints := 100, pathCount := 2 },
        materials := [("骨架材料", ["碳纤维", "无名材料"])] }
      = pyRound ((((getMat [("骨架材料", ["碳纤维", "无名材料"])] "骨架材料").filterMap
            fun m => List.lookup m Config.FRAME_MATERIALS).map
            fun props => (KiteCalculator.calculate_perimeter
                  { drawing := { totalPoints := 100, pathCount := 2 },
                    materials := [("骨架材料", ["碳纤维", "无名材料"])] } * 1.5 * 0.5)
                * props.density * props.weight_factor
                / ((getMat [("骨架材料", ["碳纤维", "无名材料"])] "骨架材料").length : ℚ)).sum) 2 :=
  ⟨by decide, (C4_frame_weight _).2 (by decide)⟩

/-- C5: area is `round(totalPoints * 0.8, 2)` for a positive point count; when
the point count is 0/absent the proxy `object_count * 50` is substituted into
the same formula; with neither present the area is 0. -/
theorem C5_area (d : DesignData) :
    (0 < d.drawing.totalPoints →
        KiteCalculator.calculate_area d
          = pyRound ((d.drawing.totalPoints : ℚ) * 0.8) 2)
  ∧ (d.drawing.totalPoints = 0 →
        KiteCalculator.calculate_area d
          = pyRound (((d.drawing.object_count * 50 : ℕ) : ℚ) * 0.8) 2)
  ∧ (d.drawing.totalPoints = 0 ∧ d.drawing.object_count = 0 →
        KiteCalculator.calculate_area d = 0) := by
  unfold KiteCalculator.calculate_area
  refine ⟨fun h => ?_, fun h => ?_, fun h => ?_⟩
  · rw [if_neg (Nat.pos_iff_ne_zero.mp h), if_pos h]
  · rw [if_pos h]
    by_cases hoc : 0 < d.drawing.object_count * 50
    · rw [if_pos hoc]
    · rw [if_neg hoc]
      have h0 : d.drawing.object_count * 50 = 0 := Nat.eq_zero_of_not_pos hoc
      rw [h0]
      exact (pyRound_int _ 2 0 0 (by norm_num) (by norm_num)).symm
  · simp [h.1, h.2]

theorem C5_area_witness :
    (0 < (10 : ℕ))
  ∧ KiteCalculator.calculate_area { drawing := { totalPoints := 10 } }
      = pyRound (((10 : ℕ) : ℚ) * 0.8) 2
  ∧ KiteCalculator.calculate_area { drawing := { object_count := 3 } }
      = pyRound (((3 * 50 : ℕ) : ℚ) * 0.8) 2 :=
  ⟨by decide, (C5_area _).1 (by decide), (C5_area _).2.1 rfl⟩

/-- The failing input for the 0–100 scale claim: a record selecting the frame
material 碳纤维 (strength 200 in the reference table) and nothing else. -/
def ex6 : DesignData := { materials := [("骨架材料", ["碳纤维"])] }

/-- C6: the claim says every index lies in 0–100, and the calculator's own
docstrings and report format state the same scale (`指数 (0-100)`), but the
configured strength 200 of 碳纤维 (and 150 of 铝合金) makes the strength index
of this design 200, outside the documented scale. -/
theorem C6_strength_index_exceeds_scale :
    (KiteCalculator.calculate_all ex6).strength_index = 200
  ∧ ¬((KiteCalculator.calculate_all ex6).strength_index ≤ 100) := by
  have hs : (KiteCalculator.calculate_all ex6).strength_index = 200 := by
    show KiteCalculator.calculate_strength_index ex6 = 200
    unfold KiteCalculator.calculate_strength_index
    rw [if_neg (by decide : ¬(getMat ex6.materials "骨架材料" = []))]
    have h1 : (getMat ex6.materials "骨架材料") = ["碳纤维"] := rfl
    rw [h1]
    have h2 : (["碳纤维"].foldl KiteCalculator.strengthContribution 0) = 0 + 200 := rfl
    rw [h2]
    exact pyRound_int _ 2 20000 200 (by norm_num) (by norm_num)
  refine ⟨hs, ?_⟩
  rw [hs]
  norm_num

/-- The drawing and material selection of the spec's Scenario B:
totalPoints = 1000, pathCount = 10, frame 碳纤维, surface 尼龙, string 凯夫拉. -/
def exB : DesignData :=
  { drawing := { totalPoints := 1000, pathCount := 10, object_count := 0 }
    materials := [("骨架材料", ["碳纤维"]), ("风筝面料", ["尼龙"]), ("绳索材料", ["凯夫拉"])] }

/-- C7 counterexample: on Scenario B the estimator's perimeter is not the
claimed 50000 (it is `10 × (1000/10) × 0.5 = 500`). -/
theorem C7_perimeter_not_50000 :
    (KiteCalculator.calculate_all exB).perimeter ≠ 50000 := by
  have hp : (KiteCalculator.calculate_all exB).perimeter = 500 := by
    show KiteCalculator.calculate_perimeter exB = 500
    unfold KiteCalculator.calculate_perimeter exB
    norm_num
    exact pyRound_int _ 2 50000 500 (by norm_num) (by norm_num)
  rw [hp]
  norm_num

/-- C7 (amended): on Scenario B the estimator returns area = 800.0 cm²,
perimeter = 10 × (1000/10) × 0.5 = 500.0 (not 50000), strength index 200 and
wind-resistance index 95. -/
theorem C7_scenB_values :
    (KiteCalculator.calculate_all exB).area = 800
  ∧ (KiteCalculator.calculate_all exB).perimeter = 500
  ∧ (KiteCalculator.calculate_all exB).strength_index = 200
  ∧ (KiteCalculator.calculate_all exB).wind_resistance = 95 := by
  refine ⟨?_, ?_, ?_, ?_⟩
  · show KiteCalculator.calculate_area exB = 800
    unfold KiteCalculator.calculate_area exB
    norm_num
    exact pyRound_int _ 2 80000 800 (by norm_num) (by norm_num)
  · show KiteCalculator.calculate_perimeter exB = 500
    unfold KiteCalculator.calculate_perimeter exB
    norm_num
    exact pyRound_int _ 2 50000 500 (by norm_num) (by norm_num)
  · show KiteCalculator.calculate_strength_index exB = 200
    unfold KiteCalculator.calculate_strength_index
    rw [if_neg (by decide : ¬(getMat exB.materials "骨架材料" = []))]
    have h1 : (getMat exB.materials "骨架材料") = ["碳纤维"] := rfl
    rw [h1]
    have h2 : (["碳纤维"].foldl KiteCalculator.strengthContribution 0) = 0 + 200 := rfl
    rw [h2]
    exact pyRound_int _ 2 20000 200 (by norm_num) (by norm_num)
  · show KiteCalculator.calculate_wind_resistance exB = 95
    unfold KiteCalculator.calculate_wind_resistance
    rw [if_neg (by decide : ¬(getMat exB.materials "风筝面料" = []))]
    have h1 : (getMat exB.materials "风筝面料") = ["尼龙"] := rfl
    rw [h1]
    have h2 : (["尼龙"].foldl KiteCalculator.windResContribution 0) = 0 + 95 := rfl
    rw [h2]
    exact pyRound_int _ 2 9500 95 (by norm_num) (by norm_num)

lemma foldl_strengthContribution (l : List String) (a : ℚ) :
    l.foldl KiteCalculator.strengthContribution a
      = a + ((l.filterMap fun m => List.lookup m Config.FRAME_MATERIALS).map
          fun props => props.strength).sum := by
  induction l generalizing a with
  | nil => simp
  | cons m l ih =>
    rw [List.foldl_cons, List.filterMap_cons]
    cases h : List.lookup m Config.FRAME_MATERIALS with
    | none =>
      simp only [KiteCalculator.strengthContribution, h]
      exact ih a
    | some props =>
      simp only [KiteCalculator.strengthContribution, h, List.map_cons, List.sum_cons]
      rw [ih]
      ring

/-- C8 counterexample: a record whose `drawing` key is present with the
non-mapping value `None` — exactly how the repository's UI layers store a
materials-only design — makes `calculate_all` raise (`self.drawing.get` on
`None`) even though its `materials` field is a perfectly well-formed mapping,
refuting "it signals failure only when the `materials` field is not
structurally a mapping of category to a collection of names". -/
theorem C8_null_drawing_still_fails :
    ¬(∃ ps, KiteCalculator.calculate_all_dyn
        { drawing := DrawingField.malformed,
          materials := MaterialsField.dict [("骨架材料", ["竹子"])] }
        = Except.ok ps)
  ∧ MaterialsField.dict [("骨架材料", ["竹子"])] ≠ MaterialsField.malformed := by
  constructor
  · rintro ⟨ps, hps⟩
    exact nomatch hps
  · intro h
    exact nomatch h

/-- C8 (amended): the estimator is total on every structurally well-formed
record — drawings absent as a missing key (read as `{}`), zero counts, empty
selections and unknown material names all yield zero fallbacks — it fails
exactly when the `materials` field is not a mapping of category to a
collection of names or the `drawing` field is present but not a mapping
(e.g. `None`), and every guarded ratio (point count, area, selection count)
falls back to 0 instead of dividing by zero. -/
theorem C8_error_handling (d : DesignDyn) (dd : DesignData) :
    ((∃ ps, KiteCalculator.calculate_all_dyn d = Except.ok ps)
        ↔ d.materials ≠ MaterialsField.malformed
          ∧ d.drawing ≠ DrawingField.malformed)
  ∧ (∀ (m : Materials) (dr : Drawing), d.materials = MaterialsField.dict m →
      d.drawing = DrawingField.dict dr →
      KiteCalculator.calculate_all_dyn d
        = Except.ok (KiteCalculator.calculate_all { drawing := dr, materials := m }))
  ∧ (dd.drawing.totalPoints = 0 ∧ dd.drawing.object_count = 0 →
      KiteCalculator.calculate_area dd = 0 ∧ KiteCalculator.calculate_perimeter dd = 0)
  ∧ (dd.drawing.pathCount = 0 ∧ dd.drawing.totalPoints ≠ 0 →
      KiteCalculator.calculate_perimeter dd = 0)
  ∧ (getMat dd.materials "骨架材料" = [] →
      KiteCalculator.calculate_frame_weight dd = 0
        ∧ KiteCalculator.calculate_strength_index dd = 0)
  ∧ (getMat dd.materials "风筝面料" = [] →
      KiteCalculator.calculate_surface_weight dd = 0
        ∧ KiteCalculator.calculate_wind_resistance dd = 0)
  ∧ (getMat dd.materials "绳索材料" = [] →
      KiteCalculator.calculate_string_weight dd = 0)
  ∧ ((∀ n ∈ getMat dd.materials "骨架材料",
        List.lookup n Config.FRAME_MATERIALS = none) →
      KiteCalculator.calculate_frame_weight dd = 0
        ∧ KiteCalculator.calculate_strength_index dd = 0)
  ∧ (KiteCalculator.calculate_area dd = 0 →
      KiteCalculator.calculate_optimal_wind_speed dd = (0, 0)) := by
  refine ⟨?_, ?_, ?_, ?_, ?_, ?_, ?_, ?_, ?_⟩
  · obtain ⟨df, mf⟩ := d
    cases mf with
    | dict m =>
      cases df with
      | dict dr =>
        constructor
        · intro _
          exact ⟨(fun hc => nomatch hc), (fun hc => nomatch hc)⟩
        · intro _
          exact ⟨_, rfl⟩
      | malformed =>
        constructor
        · rintro ⟨ps, hps⟩
          exact nomatch hps
        · rintro ⟨-, h2⟩
          exact absurd rfl h2
    | malformed =>
      cases df <;>
      · constructor
        · rintro ⟨ps, hps⟩
          exact nomatch hps
        · rintro ⟨h1, -⟩
          exact absurd rfl h1
  · intro m dr hm hdr
    unfold KiteCalculator.calculate_all_dyn
    rw [hm, hdr]
  · rintro ⟨h1, h2⟩
    constructor
    · unfold KiteCalculator.calculate_area
      simp [h1, h2]
    · unfold KiteCalculator.calculate_perimeter
      simp [h1, h2]
  · rintro ⟨h1, h2⟩
    unfold KiteCalculator.calculate_perimeter
    simp [h1, h2]
  · intro h
    constructor
    · unfold KiteCalculator.calculate_frame_weight
      rw [if_pos h]
    · unfold KiteCalculator.calculate_strength_index
      rw [if_pos h]
  · intro h
    constructor
    · unfold KiteCalculator.calculate_surface_weight
      rw [if_pos h]
    · unfold KiteCalculator.calculate_wind_resistance
      rw [if_pos h]
  · intro h
    unfold KiteCalculator.calculate_string_weight
    rw [if_pos h]
  · intro h
    have hnil : ((getMat dd.materials "骨架材料").filterMap
        fun m => List.lookup m Config.FRAME_MATERIALS) = [] :=
      List.filterMap_eq_nil_iff.mpr h
    constructor
    · unfold KiteCalculator.calculate_frame_weight
      by_cases hl : getMat dd.materials "骨架材料" = []
      · rw [if_pos hl]
      · rw [if_neg hl]
        simp only [foldl_frameContribution, hnil, List.map_nil, List.sum_nil,
          add_zero, zero_add]
        exact pyRound_zero 2
    · unfold KiteCalculator.calculate_strength_index
      by_cases hl : getMat dd.materials "骨架材料" = []
      · rw [if_pos hl]
      · rw [if_neg hl]
        simp only [foldl_strengthContribution, hnil, List.map_nil, List.sum_nil,
          add_zero, zero_add, zero_div]
        exact pyRound_zero 2
  · intro h
    unfold KiteCalculator.calculate_optimal_wind_speed
    simp [h]

theorem C8_error_handling_witness :
    ¬(∃ ps, KiteCalculator.calculate_all_dyn { materials := MaterialsField.malformed }
        = Except.ok ps)
  ∧ ¬(∃ ps, KiteCalculator.calculate_all_dyn { drawing := DrawingField.malformed }
        = Except.ok ps)
  ∧ KiteCalculator.calculate_all_dyn
        { materials := MaterialsField.dict [("骨架材料", ["未知材料"])] }
      = Except.ok (KiteCalculator.calculate_all
        { drawing := {}, materials := [("骨架材料", ["未知材料"])] })
  ∧ KiteCalculator.calculate_area { materials := [("骨架材料", ["未知材料"])] } = 0
  ∧ KiteCalculator.calculate_frame_weight
      { materials := [("骨架材料", ["未知材料"])] } = 0
  ∧ KiteCalculator.calculate_strength_index
      { materials := [("骨架材料", ["未知材料"])] } = 0
  ∧ KiteCalculator.calculate_optimal_wind_speed
      { materials := [("骨架材料", ["未知材料"])] } = (0, 0) := by
  have hall := C8_error_handling { materials := MaterialsField.malformed }
    { materials := [("骨架材料", ["未知材料"])] }
  refine ⟨?_, ?_, ?_, ?_, ?_, ?_, ?_⟩
  · intro hex
    exact absurd rfl (hall.1.mp hex).1
  · intro hex
    exact absurd rfl
      ((C8_error_handling { drawing := DrawingField.malformed }
        { materials := [("骨架材料", ["未知材料"])] }).1.mp hex).2
  · exact (C8_error_handling
      { materials := MaterialsField.dict [("骨架材料", ["未知材料"])] }
      { materials := [("骨架材料", ["未知材料"])] }).2.1 _ _ rfl rfl
  · exact (hall.2.2.1 ⟨rfl, rfl⟩).1
  · exact (hall.2.2.2.2.2.2.2.1 (by decide)).1
  · exact (hall.2.2.2.2.2.2.2.1 (by decide)).2
  · exact hall.2.2.2.2.2.2.2.2 ((hall.2.2.1 ⟨rfl, rfl⟩).1)

lemma processOne_spec (scorer : DesignRec → Option ℚ) (s : RTState) (d : DesignRec) :
    (∀ i ∈ s.processed_ids, i ∈ (RealtimeScorer.processOne scorer s d).1.processed_ids)
  ∧ (∀ i ∈ (RealtimeScorer.processOne scorer s d).2,
      i ∈ (RealtimeScorer.processOne scorer s d).1.processed_ids)
  ∧ (∀ i ∈ (RealtimeScorer.processOne scorer s d).2, i ∉ s.processed_ids)
  ∧ (RealtimeScorer.processOne scorer s d).2.Nodup := by
  unfold RealtimeScorer.processOne
  by_cases hi : designId d ∈ s.processed_ids
  · simp [hi]
  · cases hs : scorer d with
    | some v =>
      refine ⟨?_, ?_, ?_, ?_⟩ <;> simp [hi, hs]
      exact fun i him => Or.inr him
    | none =>
      refine ⟨?_, ?_, ?_, ?_⟩ <;> simp [hi, hs]
      exact fun i him => Or.inr him

lemma check_new_designs_spec (scorer : DesignRec → Option ℚ) (ds : List DesignRec) :
    ∀ s : RTState,
      (∀ i ∈ s.processed_ids,
          i ∈ (RealtimeScorer.check_new_designs scorer s ds).1.processed_ids)
    ∧ (∀ i ∈ (RealtimeScorer.check_new_designs scorer s ds).2,
          i ∈ (RealtimeScorer.check_new_designs scorer s ds).1.processed_ids)
    ∧ (∀ i ∈ (RealtimeScorer.check_new_designs scorer s ds).2, i ∉ s.processed_ids)
    ∧ (RealtimeScorer.check_new_designs scorer s ds).2.Nodup := by
  induction ds with
  | nil =>
    intro s
    refine ⟨fun i hi => ?_, ?_, ?_, ?_⟩ <;>
      simp [RealtimeScorer.check_new_designs]
    exact hi
  | cons d ds ih =>
    intro s
    obtain ⟨p1, p2, p3, p4⟩ := processOne_spec scorer s d
    obtain ⟨q1, q2, q3, q4⟩ := ih (RealtimeScorer.processOne scorer s d).1
    have hunfold : RealtimeScorer.check_new_designs scorer s (d :: ds)
        = ((RealtimeScorer.check_new_designs scorer
              (RealtimeScorer.processOne scorer s d).1 ds).1,
           (RealtimeScorer.processOne scorer s d).2
             ++ (RealtimeScorer.check_new_designs scorer
              (RealtimeScorer.processOne scorer s d).1 ds).2) := rfl
    rw [hunfold]
    refine ⟨?_, ?_, ?_, ?_⟩
    · exact fun i hi => q1 i (p1 i hi)
    · intro i hi
      rcases List.mem_append.mp hi with h1 | h2
      · exact q1 i (p2 i h1)
      · exact q2 i h2
    · intro i hi
      rcases List.mem_append.mp hi with h1 | h2
      · exact p3 i h1
      · exact fun hmem => q3 i h2 (p1 i hmem)
    · refine List.Nodup.append p4 q4 ?_
      intro i h1 h2
      exact q3 i h2 (p2 i h1)

lemma runMonitor_spec (scorer : DesignRec → Option ℚ) (batches : List (List DesignRec)) :
    ∀ s : RTState,
      (∀ i ∈ s.processed_ids,
          i ∈ (RealtimeScorer.runMonitor scorer s batches).1.processed_ids)
    ∧ (∀ i ∈ (RealtimeScorer.runMonitor scorer s batches).2,
          i ∈ (RealtimeScorer.runMonitor scorer s batches).1.processed_ids)
    ∧ (∀ i ∈ (RealtimeScorer.runMonitor scorer s batches).2, i ∉ s.processed_ids)
    ∧ (RealtimeScorer.runMonitor scorer s batches).2.Nodup := by
  induction batches with
  | nil =>
    intro s
    refine ⟨fun i hi => ?_, ?_, ?_, ?_⟩ <;>
      simp [RealtimeScorer.runMonitor]
    exact hi
  | cons b bs ih =>
    intro s
    obtain ⟨p1, p2, p3, p4⟩ := check_new_designs_spec scorer b s
    obtain ⟨q1, q2, q3, q4⟩ :=
      ih (RealtimeScorer.check_new_designs scorer s b).1
    have hunfold : RealtimeScorer.runMonitor scorer s (b :: bs)
        = ((RealtimeScorer.runMonitor scorer
              (RealtimeScorer.check_new_designs scorer s b).1 bs).1,
           (RealtimeScorer.check_new_designs scorer s b).2
             ++ (RealtimeScorer.runMonitor scorer
              (RealtimeScorer.check_new_designs scorer s b).1 bs).2) := rfl
    rw [hunfold]
    refine ⟨?_, ?_, ?_, ?_⟩
    · exact fun i hi => q1 i (p1 i hi)
    · intro i hi
      rcases List.mem_append.mp hi with h1 | h2
      · exact q1 i (p2 i h1)
      · exact q2 i h2
    · intro i hi
      rcases List.mem_append.mp hi with h1 | h2
      · exact p3 i h1
      · exact fun hmem => q3 i h2 (p1 i hmem)
    · refine List.Nodup.append p4 q4 ?_
      intro i h1 h2
      exact q3 i h2 (p2 i h1)

/-- C9: across any sequence of `check_new_designs` iterations the scorer is
invoked at most once per distinct design identifier — the list of identifiers
ever attempted has no duplicate — and an identifier already in the processed
set when the run starts is never attempted again, regardless of later records
with the same identifier (changed content or an earlier scoring error
included). -/
theorem C9_processed_never_rescored (scorer : DesignRec → Option ℚ) (s : RTState)
    (batches : List (List DesignRec)) :
    ((RealtimeScorer.runMonitor scorer s batches).2).Nodup
  ∧ (∀ i ∈ s.processed_ids, i ∉ (RealtimeScorer.runMonitor scorer s batches).2) :=
  ⟨(runMonitor_spec scorer batches s).2.2.2,
   fun i hi hmem => (runMonitor_spec scorer batches s).2.2.1 i hmem hi⟩

theorem C9_processed_never_rescored_witness :
    ((RealtimeScorer.runMonitor
        (fun d => if d.payload = 0 then none else some 1)
        { processed_ids := ["a"], results := [] }
        [[{ design_id := some "a", payload := 3 },
          { design_id := some "b", payload := 0 }],
         [{ design_id := some "b", payload := 5 }]]).2).Nodup
  ∧ "a" ∉ (RealtimeScorer.runMonitor
        (fun d => if d.payload = 0 then none else some 1)
        { processed_ids := ["a"], results := [] }
        [[{ design_id := some "a", payload := 3 },
          { design_id := some "b", payload := 0 }],
         [{ design_id := some "b", payload := 5 }]]).2 :=
  ⟨(C9_processed_never_rescored _ _ _).1,
   (C9_processed_never_rescored _ _ _).2 "a" (by decide)⟩

lemma calculate_perimeter_pos (n k oc : ℕ) (hn : 0 < n) (hk : 0 < k) :
    KiteCalculator.calculate_perimeter
        { drawing := { totalPoints := n, pathCount := k, object_count := oc },
          materials := [] }
      = pyRound ((n : ℚ) * 0.5) 2 := by
  unfold KiteCalculator.calculate_perimeter
  have hn' : ¬(n = 0) := Nat.pos_iff_ne_zero.mp hn
  have hkQ : ((k : ℚ)) ≠ 0 := Nat.cast_ne_zero.mpr (Nat.pos_iff_ne_zero.mp hk)
  simp only [hn', if_false, if_neg hn']
  rw [if_pos hk]
  have harg : (k : ℚ) * ((n : ℚ) / (k : ℚ)) * 0.5 = (n : ℚ) * 0.5 := by
    field_simp
  rw [harg]

lemma legacy_calculate_perimeter_pos (n k oc : ℕ) (_hn : 0 < n) (hk : 0 < k) :
    LegacyKiteCalculator.calculate_perimeter
        { totalPoints := n, pathCount := k, object_count := oc }
      = pyRound ((n : ℚ) * 0.5) 2 := by
  unfold LegacyKiteCalculator.calculate_perimeter
  have hkQ : ((k : ℚ)) ≠ 0 := Nat.cast_ne_zero.mpr (Nat.pos_iff_ne_zero.mp hk)
  rw [if_pos hk]
  have harg : (k : ℚ) * ((n : ℚ) / (k : ℚ)) * 0.5 = (n : ℚ) * 0.5 := by
    field_simp
  show pyRound ((k : ℚ) * ((n : ℚ) / (k : ℚ)) * 0.5) 2 = pyRound ((n : ℚ) * 0.5) 2
  rw [harg]

/-- C10: for positive point and path counts the path count cancels out of the
perimeter formula — both the core and the legacy calculator return
`round(totalPoints * 0.5, 2)`, so drawings with the same point count and
different path counts get the same perimeter. -/
theorem C10_perimeter_path_count_cancels (n k oc : ℕ) (hn : 0 < n) (hk : 0 < k) :
    KiteCalculator.calculate_perimeter
        { drawing := { totalPoints := n, pathCount := k, object_count := oc },
          materials := [] }
      = pyRound ((n : ℚ) * 0.5) 2
  ∧ LegacyKiteCalculator.calculate_perimeter
        { totalPoints := n, pathCount := k, object_count := oc }
      = pyRound ((n : ℚ) * 0.5) 2
  ∧ (∀ k' : ℕ, 0 < k' →
      KiteCalculator.calculate_perimeter
          { drawing := { totalPoints := n, pathCount := k, object_count := oc },
            materials := [] }
        = KiteCalculator.calculate_perimeter
          { drawing := { totalPoints := n, pathCount := k', object_count := oc },
            materials := [] }) :=
  ⟨calculate_perimeter_pos n k oc hn hk,
   legacy_calculate_perimeter_pos n k oc hn hk,
   fun k' hk' => (calculate_perimeter_pos n k oc hn hk).trans
     (calculate_perimeter_pos n k' oc hn hk').symm⟩

theorem C10_perimeter_path_count_cancels_witness :
    KiteCalculator.calculate_perimeter
        { drawing := { totalPoints := 1000, pathCount := 10, object_count := 0 },
          materials := [] }
      = pyRound ((1000 : ℚ) * 0.5) 2
  ∧ KiteCalculator.calculate_perimeter
        { drawing := { totalPoints := 1000, pathCount := 10, object_count := 0 },
          materials := [] }
      = KiteCalculator.calculate_perimeter
        { drawing := { totalPoints := 1000, pathCount := 7, object_count := 0 },
          materials := [] } :=
  ⟨((C10_perimeter_path_count_cancels 1000 10 0 (by decide) (by decide))).1,
   ((C10_perimeter_path_count_cancels 1000 10 0 (by decide) (by decide))).2.2
     7 (by decide)⟩
